import Mathlib

/-!
Verification of the Tron-Ares-Worker subtitle-proxy repository.

The repository holds three variants of the same OpenSubtitles proxy:
  * `src/opensubtitles-proxy-server.mjs` — a Node HTTP server whose token
    broker is `osLogin` (in-flight collapsing, 8 h token reuse, 1.1 s
    minimum spacing between login attempts, one 401-triggered retry in
    `handleDownload`);
  * `src/opensubtitles-proxy.worker.js` — a Cloudflare Worker whose token
    broker is `ensureToken` (12 h cache, returns `null` when credentials
    are missing);
  * `src/unnamed/part_000` — the `tronapp-subproxy` Cloudflare Worker whose
    token broker is `login` (10 min cache, throws when credentials are
    missing) with handlers `handleSearch` and `handleDownloadFile`.

Times are modelled as `Int` milliseconds (JS `Date.now()`), JS string
truthiness (`""` and `null`/`undefined` are falsy) as explicit checks, and
network I/O as oracle parameters that carry the upstream responses.
-/

/-- JS truthiness of a nullable string: `null`/`undefined` (`none`) and the
empty string are falsy. -/
def jsTruthyStr : Option String → Bool
  | none => false
  | some t => !(t == "")

/-- JS `s || d` for strings: falsy (empty) strings fall through to the
default. -/
def jsOr (s d : String) : String := if s == "" then d else s

/-- JS `v || d` for a nullable string `v`. -/
def jsOrOpt : Option String → String → String
  | none, d => d
  | some s, d => if s == "" then d else s

/-- JS `String.prototype.trim()`: strip leading and trailing whitespace
(structural recursion over the character list, so that concrete instances
evaluate inside the kernel). -/
def jsTrim (s : String) : String :=
  ⟨((s.data.dropWhile (fun c => c.isWhitespace)).reverse.dropWhile
      (fun c => c.isWhitespace)).reverse⟩

/-- `res.ok` of the fetch API: status in the range 200–299. -/
def respOk (status : Nat) : Bool := decide (200 ≤ status) && decide (status < 300)

/-- Upstream response to a `POST /login` call, as the JS code consumes it:
`ok`/`status` from the HTTP response, `token` the (nullable, possibly empty)
token field of the parsed JSON body, `message` its message field (empty
string when absent or when the body failed to parse). -/
structure LoginResp where
  ok : Bool
  status : Nat
  token : Option String
  message : String
deriving DecidableEq

/-! ## Node server variant (`src/opensubtitles-proxy-server.mjs`) -/

/-- Server environment: `OS_USERNAME` (trimmed at startup) and
`OS_PASSWORD`; a missing variable is read as `""` by
`process.env.X || ""`. -/
structure ServerEnv where
  OS_USERNAME : String
  OS_PASSWORD : String
deriving DecidableEq

/-- The credentials check opening `osLogin` (lines 100–102):
`if (!OS_USERNAME || !OS_PASSWORD) throw`. -/
def credsOk (env : ServerEnv) : Bool :=
  !(env.OS_USERNAME == "") && !(env.OS_PASSWORD == "")

/-- Module state of the server (lines 45–48): `cachedToken`, `tokenSetAtMs`,
`loginInFlight` (modelled as the id of the pending login promise),
`lastLoginAtMs`; `loginCalls` counts the `POST /login` network requests
issued so far and `nextId` supplies fresh promise ids. -/
structure BrokerState where
  cachedToken : Option String
  tokenSetAtMs : Int
  loginInFlight : Option Nat
  lastLoginAtMs : Int
  loginCalls : Nat
  nextId : Nat
deriving DecidableEq

/-- Token reuse window of `osLogin` (line 106): 8 hours in ms. -/
def tokenTtlMs : Int := 8 * 60 * 60 * 1000

/-- Minimum spacing between login attempts (line 114): 1100 ms. -/
def loginSpacingMs : Int := 1100

/-- Result of the synchronous prefix of one `osLogin` call. -/
inductive LoginEnter where
  /-- The credentials check threw before anything else. -/
  | failed (msg : String)
  /-- A fresh cached token was returned with no network activity. -/
  | cached (t : String)
  /-- The caller attached to the already in-flight login promise `id`. -/
  | attach (id : Nat)
  /-- The caller created in-flight login promise `id` (its IIFE will issue
  exactly one `POST /login`). -/
  | started (id : Nat)
deriving DecidableEq

/-- The synchronous prefix of `osLogin` (lines 99–110): credentials check,
cached-token check (`cachedToken && ageMs < 8h`), in-flight check, and —
when none of those returns — creation of the in-flight promise.  In the JS
event loop this whole prefix runs atomically (no `await` before
`loginInFlight` is assigned). -/
def osLoginEnter (env : ServerEnv) (now : Int) (s : BrokerState) :
    LoginEnter × BrokerState :=
  if credsOk env then
    if jsTruthyStr s.cachedToken && decide (now - s.tokenSetAtMs < tokenTtlMs) then
      (.cached (s.cachedToken.getD ""), s)
    else
      match s.loginInFlight with
      | some id => (.attach id, s)
      | none =>
          (.started s.nextId,
           { s with loginInFlight := some s.nextId, nextId := s.nextId + 1 })
  else
    (.failed "OS_USERNAME/OS_PASSWORD manquants (necessaires pour /download).", s)

/-- The spacing-then-fetch step of the login IIFE (lines 111–122): reads
`delta = now - lastLoginAtMs`, sleeps `1100 - delta` ms when `delta < 1100`,
records the attempt time into `lastLoginAtMs`, and issues the `POST /login`
network request (counted in `loginCalls`).  `slack ≥ 0` accounts for extra
real time elapsed before the post-sleep `Date.now()` read. -/
def osLoginAttempt (now : Int) (slack : Nat) (s : BrokerState) : BrokerState :=
  let delta := now - s.lastLoginAtMs
  let wake := (if delta < loginSpacingMs then now + (loginSpacingMs - delta) else now) + slack
  { s with lastLoginAtMs := wake, loginCalls := s.loginCalls + 1 }

/-- The completion of the login IIFE (lines 124–138): on a non-ok response
or an absent/falsy token the promise rejects; otherwise the token and the
current timestamp are cached and the promise resolves with the token.  The
`finally` handler clears `loginInFlight` on every path. -/
def osLoginFinish (resp : LoginResp) (now : Int) (s : BrokerState) :
    Except String String × BrokerState :=
  if resp.ok then
    if jsTruthyStr resp.token then
      let tok := resp.token.getD ""
      (.ok tok,
       { s with cachedToken := some tok, tokenSetAtMs := now, loginInFlight := none })
    else
      (.error "Login OpenSubtitles: token absent dans la reponse.",
       { s with loginInFlight := none })
  else
    (.error ("Login OpenSubtitles (" ++ toString resp.status ++ "): " ++
             jsOr resp.message ""),
     { s with loginInFlight := none })

/-- One complete sequential `await osLogin()` by a single caller: the
synchronous prefix followed, when a login is actually run, by the spacing
step and the completion with upstream response `resp`.  `nowE` is the time
the call enters, `nowF` the time the response lands. -/
def osLoginRun (env : ServerEnv) (nowE : Int) (slack : Nat) (nowF : Int)
    (resp : LoginResp) (s : BrokerState) : Except String String × BrokerState :=
  match osLoginEnter env nowE s with
  | (.failed m, s1) => (.error m, s1)
  | (.cached t, s1) => (.ok t, s1)
  | (.attach _, s1) => osLoginFinish resp nowF s1
  | (.started _, s1) => osLoginFinish resp nowF (osLoginAttempt nowE slack s1)

/-- The result each concurrent `osLogin` caller eventually observes:
callers that attached to or created the in-flight promise all receive its
single resolution `resolved`. -/
def callerOutcome (r : LoginEnter) (resolved : Except String String) :
    Except String String :=
  match r with
  | .failed m => .error m
  | .cached t => .ok t
  | .attach _ => resolved
  | .started _ => resolved

/-- Whether an enter result created a fresh in-flight login. -/
def isStarted : LoginEnter → Bool
  | .started _ => true
  | _ => false

/-- N concurrent `osLogin` calls, one synchronous prefix after another (the
JS event loop runs each prefix to completion atomically); `ts` lists the
entry times. -/
def runEnters (env : ServerEnv) : List Int → BrokerState → List LoginEnter × BrokerState
  | [], s => ([], s)
  | t :: ts, s =>
      let (r, s1) := osLoginEnter env t s
      let (rs, s2) := runEnters env ts s1
      (r :: rs, s2)

/-! ### `handleDownload` (server, lines 165–214) -/

/-- Upstream response to a `POST /download` call as `handleDownload`
consumes it: the HTTP status, the `link` field of the parsed JSON body
(`none` when the body failed to parse or has no link), and the
message/error field (empty when absent). -/
structure DlResp where
  status : Nat
  link : Option String
  message : String
deriving DecidableEq

/-- Network oracle for one `handleDownload` request: upstream responses for
the initial login, the first `/download` call, the re-login after a 401,
the retried `/download` call, and the final file fetch. -/
structure DlOracle where
  loginResp : LoginResp
  firstResp : DlResp
  reLoginResp : LoginResp
  secondResp : DlResp
  fileStatus : Nat
  fileBody : String
deriving DecidableEq

/-- What `handleDownload` sends back: a JSON error envelope, the plain-text
subtitle body, or a thrown error (converted to a 500 JSON envelope by the
server's top-level catch). -/
inductive DlOutcome where
  | json (status : Nat) (error : String)
  | text (status : Nat) (body : String)
  | threw (msg : String)
deriving DecidableEq

/-- Result of one `handleDownload` request: the response, the number of
`POST /download` network calls issued, and the broker state left behind. -/
structure DlRun where
  outcome : DlOutcome
  dlCalls : Nat
  state : BrokerState
deriving DecidableEq

/-- Lines 198–213: after the (possibly retried) `/download` call, either
send the upstream error as JSON (`out.res.status || 500`, message defaulted)
or fetch the signed link and return the subtitle text (a failed file fetch
is sent as JSON with the file-fetch status). -/
def dlFinish (out : DlResp) (o : DlOracle) (calls : Nat) (s : BrokerState) : DlRun :=
  if !respOk out.status || !jsTruthyStr out.link then
    { outcome := .json (if out.status = 0 then 500 else out.status)
        (jsOr out.message "OpenSubtitles download error"),
      dlCalls := calls, state := s }
  else if !respOk o.fileStatus then
    { outcome := .json o.fileStatus (jsOr o.fileBody ""),
      dlCalls := calls, state := s }
  else
    { outcome := .text 200 o.fileBody, dlCalls := calls, state := s }

/-- `handleDownload` (lines 165–214): validate `file_id` (`none` models a
non-finite `Number(...)`), acquire a token via `osLogin`, `POST /download`;
on a 401 clear the cached token, re-login and retry exactly once; then
finish with `dlFinish`.  A thrown login error becomes `.threw` (the server
wraps it in a 500 JSON envelope). -/
def handleDownload (env : ServerEnv) (fileId : Option Int) (o : DlOracle)
    (now : Int) (s : BrokerState) : DlRun :=
  match fileId with
  | none => { outcome := .json 400 "file_id invalide", dlCalls := 0, state := s }
  | some fid =>
    if fid ≤ 0 then
      { outcome := .json 400 "file_id invalide", dlCalls := 0, state := s }
    else
      match osLoginRun env now 0 now o.loginResp s with
      | (.error m, s1) => { outcome := .threw m, dlCalls := 0, state := s1 }
      | (.ok _, s1) =>
        if o.firstResp.status = 401 then
          let s2 := { s1 with cachedToken := none, tokenSetAtMs := 0 }
          match osLoginRun env now 0 now o.reLoginResp s2 with
          | (.error m, s3) => { outcome := .threw m, dlCalls := 1, state := s3 }
          | (.ok _, s3) => dlFinish o.secondResp o 2 s3
        else dlFinish o.firstResp o 1 s1


/-! ## Cloudflare Worker variant (`src/opensubtitles-proxy.worker.js`) -/

/-- Worker environment bindings used by the token logic; a variable may be
absent (`none`) or present, and JS truthiness treats `""` as absent. -/
structure WorkerEnv where
  OS_USERNAME : Option String
  OS_PASSWORD : Option String
deriving DecidableEq

/-- Per-isolate token cache shared by the two Cloudflare Worker variants:
the worker's `cachedToken`/`tokenExpMs` (lines 23–24) and part_000's
`cachedToken`/`cachedTokenExpMs` (lines 33–34).  `loginCalls` counts the
`POST /login` network requests issued. -/
structure WorkerState where
  cachedToken : Option String
  tokenExpMs : Int
  loginCalls : Nat
deriving DecidableEq

/-- `ensureToken` (worker lines 46–75): reuse a cached token while more
than 60 s of its 12 h lifetime remains; with missing credentials return
`null` (no error); otherwise issue the login call, throw on a non-ok
response, and cache the token field (`null` when absent) for 12 h. -/
def ensureToken (env : WorkerEnv) (now : Int) (resp : LoginResp)
    (s : WorkerState) : Except String (Option String) × WorkerState :=
  if jsTruthyStr s.cachedToken && decide (s.tokenExpMs - now > 60000) then
    (.ok s.cachedToken, s)
  else if !jsTruthyStr env.OS_USERNAME || !jsTruthyStr env.OS_PASSWORD then
    (.ok none, s)
  else
    let s1 : WorkerState := { s with loginCalls := s.loginCalls + 1 }
    if resp.ok then
      let tok := match resp.token with
        | some t => if t == "" then none else some t
        | none => none
      (.ok tok, { s1 with cachedToken := tok, tokenExpMs := now + 43200000 })
    else
      (.error (jsOr resp.message ("Login failed (" ++ toString resp.status ++ ")")), s1)

/-- `pick` (worker lines 77–83): first non-empty (after trim) value among
the given query-parameter keys, or `""`. -/
def pick (m : List (String × String)) : List String → String
  | [] => ""
  | k :: ks =>
      match m.find? (fun p => p.1 == k) with
      | some p => if jsTrim p.2 == "" then pick m ks else jsTrim p.2
      | none => pick m ks

/-- `searchParams.get(k)`: first value bound to `k`, or null.  Also used
for header lookup on modelled header lists. -/
def lookupParam (params : List (String × String)) (k : String) : Option String :=
  (params.find? (fun p => p.1 == k)).map (fun p => p.2)

/-- Upstream response to a `GET /subtitles` search call as the handlers
consume it. -/
structure ApiResp where
  ok : Bool
  status : Nat
  message : String
deriving DecidableEq

/-- Observable result of one `/search` request: the status sent to the
client, its error message if any, the query parameters forwarded upstream,
and the number of upstream network calls issued. -/
structure SearchRun where
  status : Nat
  error : Option String
  forwarded : List (String × String)
  upstreamCalls : Nat
deriving DecidableEq

/-- The worker's `/search` route (lines 94–124): `pick` each supported
parameter, add the non-empty ones to the upstream URL, and always issue the
upstream request; a non-ok upstream response is forwarded with its status
and message, an ok one is returned with status 200. -/
def workerSearch (params : List (String × String)) (resp : ApiResp) : SearchRun :=
  let query := pick params ["query"]
  let languages := pick params ["languages", "langs"]
  let tmdb_id := pick params ["tmdb_id"]
  let imdb_id := pick params ["imdb_id"]
  let season_number := pick params ["season_number"]
  let episode_number := pick params ["episode_number"]
  let fwd :=
    (if query == "" then [] else [("query", query)]) ++
    (if languages == "" then [] else [("languages", languages)]) ++
    (if tmdb_id == "" then [] else [("tmdb_id", tmdb_id)]) ++
    (if imdb_id == "" then [] else [("imdb_id", imdb_id)]) ++
    (if season_number == "" then [] else [("season_number", season_number)]) ++
    (if episode_number == "" then [] else [("episode_number", episode_number)])
  if resp.ok then
    { status := 200, error := none, forwarded := fwd, upstreamCalls := 1 }
  else
    { status := resp.status, error := some (jsOr resp.message "Search failed"),
      forwarded := fwd, upstreamCalls := 1 }

/-- Observable result of the server's `/os/subtitles` passthrough: the
status sent to the client, its error message if any, the upstream path
fetched, and the number of upstream network calls issued. -/
structure SubtitlesRun where
  status : Nat
  error : Option String
  upstreamPath : String
  upstreamCalls : Nat
deriving DecidableEq

/-- `handleSubtitles` (server lines 143–163): forward the incoming query
string `qs` (`reqUrl.searchParams.toString()`) verbatim to
`GET /subtitles` — always exactly one upstream call, with no emptiness
check of any parameter; a non-ok upstream response is sent back with its
status and defaulted message, an ok one as 200 with the upstream body
(the `X-OpenSubtitles-Message` body annotation is abstracted away). -/
def handleSubtitles (qs : String) (resp : ApiResp) : SubtitlesRun :=
  let path := "/subtitles" ++ (if qs == "" then "" else "?" ++ qs)
  if resp.ok then
    { status := 200, error := none, upstreamPath := path, upstreamCalls := 1 }
  else
    { status := resp.status, error := some (jsOr resp.message "OpenSubtitles error"),
      upstreamPath := path, upstreamCalls := 1 }

/-- `fileName.replace(/"/g, "")`: remove every double quote. -/
def stripQuotes (s : String) : String := ⟨s.data.filter (fun c => !(c == '"'))⟩

/-- `corsHeaders()` of the worker (lines 26–33). -/
def corsHeadersW : List (String × String) :=
  [("Access-Control-Allow-Origin", "*"),
   ("Access-Control-Allow-Methods", "GET,POST,OPTIONS"),
   ("Access-Control-Allow-Headers", "Content-Type"),
   ("Access-Control-Max-Age", "86400")]

/-- `CORS_HEADERS` of part_000 (lines 18–23). -/
def CORS_HEADERS : List (String × String) :=
  [("Access-Control-Allow-Origin", "*"),
   ("Access-Control-Allow-Methods", "GET,POST,OPTIONS"),
   ("Access-Control-Allow-Headers", "Content-Type,Authorization,Api-Key,X-User-Agent,User-Agent"),
   ("Access-Control-Max-Age", "86400")]

/-- Network oracle for one `/download-file` request: the login response,
the `POST /download` status and parsed `link`/`file_name`/`message`
fields, and the final file fetch (status, body, upstream Content-Type). -/
structure DlFileOracle where
  loginResp : LoginResp
  dlStatus : Nat
  dlLink : Option String
  dlFileName : Option String
  dlMessage : String
  fileStatus : Nat
  fileBody : String
  fileContentType : Option String
deriving DecidableEq

/-- What a worker route hands back to the client: a JSON envelope or a
streamed body with its headers.  JSON envelopes also carry Content-Type and
CORS headers in the source; only streamed responses' headers are modelled
since only those are claimed about. -/
inductive HandlerResp where
  | json (status : Nat) (message : String)
  | stream (status : Nat) (headers : List (String × String)) (body : String)
deriving DecidableEq

/-- Headers of a streamed response, if any. -/
def responseHeader (r : HandlerResp) (k : String) : Option String :=
  match r with
  | .stream _ hs _ => lookupParam hs k
  | .json _ _ => none

/-- The worker's `/download-file` route (lines 126–169): require `file_id`,
acquire a token via `ensureToken` (may be `null`), `POST /download`,
require a `link`, fetch it, and stream the body with status 200, a
format-derived Content-Type, CORS headers, and
`Content-Disposition: inline; filename="…"` with quotes stripped from the
(upstream-provided or defaulted) file name. -/
def workerDownloadFile (params : List (String × String)) (env : WorkerEnv)
    (o : DlFileOracle) (now : Int) (s : WorkerState) : HandlerResp × WorkerState :=
  let file_id := pick params ["file_id"]
  let format := jsOr (pick params ["format"]) "srt"
  if file_id == "" then (.json 400 "Missing file_id", s)
  else
    match ensureToken env now o.loginResp s with
    | (.error m, s1) => (.json 500 m, s1)
    | (.ok _, s1) =>
      if !respOk o.dlStatus then
        (.json o.dlStatus (jsOr o.dlMessage "Download request failed"), s1)
      else
        let fileName := jsOrOpt o.dlFileName ("subtitle-" ++ file_id ++ "." ++ format)
        if !jsTruthyStr o.dlLink then (.json 502 "No link returned by API", s1)
        else if !respOk o.fileStatus then
          (.json o.fileStatus "Failed to fetch file", s1)
        else
          let contentType := if format == "vtt" then "text/vtt; charset=utf-8"
            else "application/x-subrip; charset=utf-8"
          (.stream 200
            (corsHeadersW ++
             [("Content-Type", contentType),
              ("Content-Disposition",
                "inline; filename=\"" ++ stripQuotes fileName ++ "\"")])
            o.fileBody, s1)

/-! ## `tronapp-subproxy` variant (`src/unnamed/part_000`) -/

/-- Environment of part_000 as its token logic reads it. -/
structure P0Env where
  OS_USERNAME : Option String
  OS_PASSWORD : Option String
deriving DecidableEq

/-- The guard of `getEnvOrThrow` (lines 36–42): absent, empty or
whitespace-only values are rejected. -/
def envMissing : Option String → Bool
  | none => true
  | some v => jsTrim v == ""

/-- `getEnvOrThrow` (part_000 lines 36–42). -/
def getEnvOrThrow (v : Option String) (key : String) : Except String String :=
  if envMissing v then .error ("Missing env var/secret: " ++ key)
  else .ok (v.getD "")

/-- `login` (part_000 lines 59–83): reuse a cached token while more than
60 s of its 10 min lifetime remains; throw when a credential is missing;
otherwise issue the login call, throw on a non-ok response or a falsy
token, and cache the token for 10 minutes. -/
def login (env : P0Env) (now : Int) (resp : LoginResp) (s : WorkerState) :
    Except String String × WorkerState :=
  if jsTruthyStr s.cachedToken && decide (s.tokenExpMs - now > 60000) then
    (.ok (s.cachedToken.getD ""), s)
  else
    match getEnvOrThrow env.OS_USERNAME "OS_USERNAME" with
    | .error m => (.error m, s)
    | .ok _ =>
      match getEnvOrThrow env.OS_PASSWORD "OS_PASSWORD" with
      | .error m => (.error m, s)
      | .ok _ =>
        let s1 : WorkerState := { s with loginCalls := s.loginCalls + 1 }
        if !resp.ok || !jsTruthyStr resp.token then
          (.error ("OpenSubtitles login failed (" ++ toString resp.status ++ ")"), s1)
        else
          (.ok (resp.token.getD ""),
           { s1 with cachedToken := resp.token, tokenExpMs := now + 600000 })

/-- `handleSearch` (part_000 lines 85–103): trim the `query`, `languages`
and `page` parameters (`page` defaults to `"1"`); an empty query is
answered 400 with no upstream call; otherwise the non-empty parameters are
forwarded and the upstream status is returned verbatim. -/
def handleSearch (params : List (String × String)) (resp : ApiResp) : SearchRun :=
  let query := jsTrim ((lookupParam params "query").getD "")
  let languages := jsTrim ((lookupParam params "languages").getD "")
  let page := jsTrim (jsOrOpt (lookupParam params "page") "1")
  if query == "" then
    { status := 400, error := some "Missing query", forwarded := [], upstreamCalls := 0 }
  else
    { status := resp.status, error := none,
      forwarded := [("query", query)] ++
        (if languages == "" then [] else [("languages", languages)]) ++
        (if page == "" then [] else [("page", page)]),
      upstreamCalls := 1 }

/-- Headers of a streamed part_000 response: the result of the
`Headers.set` sequence of lines 142–145 / 175–181 applied to the upstream
file response's headers (abstracted to their optional Content-Type):
keep/overwrite Content-Type (text/plain default when falsy), set
Content-Disposition, then set the four CORS headers. -/
def p0StreamHeaders (upCT : Option String) (cd : String) : List (String × String) :=
  [("Content-Type", jsOrOpt upCT "text/plain; charset=utf-8"),
   ("Content-Disposition", cd)] ++ CORS_HEADERS

/-- The `sub_format` selection of part_000's `handleDownloadFile`
(line 136): `sub_format` param, else `format` param, else `"srt"`. -/
def p0SubFormat (params : List (String × String)) : String :=
  jsOrOpt (lookupParam params "sub_format")
    (jsOrOpt (lookupParam params "format") "srt")

/-- `handleDownloadFile` (part_000 lines 132–184): legacy `url=` mode
streams the pre-signed link with
`Content-Disposition: attachment; filename="subtitle.<subFormat>"` (no
quote stripping); otherwise require `file_id`, `login`, `POST /download`,
require ok + `link`, fetch the link and stream its body (with the
upstream's status, unchecked) under
`attachment; filename="…"` with quotes stripped from the upstream or
defaulted file name, plus CORS headers. -/
def handleDownloadFile (params : List (String × String)) (env : P0Env)
    (o : DlFileOracle) (now : Int) (s : WorkerState) : HandlerResp × WorkerState :=
  let fileId := lookupParam params "file_id"
  let legacyUrl := lookupParam params "url"
  let subFormat := p0SubFormat params
  if !jsTruthyStr fileId && jsTruthyStr legacyUrl then
    (.stream o.fileStatus
      (p0StreamHeaders o.fileContentType
        ("attachment; filename=\"subtitle." ++ subFormat ++ "\""))
      o.fileBody, s)
  else if !jsTruthyStr fileId then (.json 400 "Missing file_id", s)
  else
    match login env now o.loginResp s with
    | (.error m, s1) => (.json 500 m, s1)
    | (.ok _, s1) =>
      if !respOk o.dlStatus || !jsTruthyStr o.dlLink then
        (.json (if o.dlStatus = 0 then 500 else o.dlStatus)
          "OpenSubtitles download failed", s1)
      else
        (.stream o.fileStatus
          (p0StreamHeaders o.fileContentType
            ("attachment; filename=\"" ++
             stripQuotes (jsOrOpt o.dlFileName ("subtitle." ++ subFormat)) ++ "\""))
          o.fileBody, s1)


/-! ### Theorems about the server token broker -/

/-- C4: every login attempt records an attempt time at least
`loginSpacingMs` (1100 ms) after the previously recorded one — the IIFE
suspends until the spacing requirement is met, whatever the entry time and
however much extra real time the sleep takes. -/
theorem C4_login_spacing (now : Int) (slack : Nat) (s : BrokerState) :
    loginSpacingMs ≤ (osLoginAttempt now slack s).lastLoginAtMs - s.lastLoginAtMs := by
  unfold osLoginAttempt
  simp only []
  split
  · omega
  · rename_i h
    unfold loginSpacingMs at h ⊢
    omega

/-- Branch lemma: with credentials and a fresh truthy cached token,
`osLogin` returns the cached token with no state change. -/
theorem osLoginEnter_eq_cached (env : ServerEnv) (now : Int) (s : BrokerState)
    (t : String) (hc : credsOk env = true) (ht : s.cachedToken = some t)
    (hne : t ≠ "") (hfresh : now - s.tokenSetAtMs < tokenTtlMs) :
    osLoginEnter env now s = (.cached t, s) := by
  simp [osLoginEnter, hc, ht, jsTruthyStr, hne, hfresh]

/-- Branch lemma: with credentials, no usable cached token and no login in
flight, `osLogin` creates a fresh in-flight login. -/
theorem osLoginEnter_eq_started (env : ServerEnv) (now : Int) (s : BrokerState)
    (hc : credsOk env = true)
    (hcond : (jsTruthyStr s.cachedToken &&
      decide (now - s.tokenSetAtMs < tokenTtlMs)) = false)
    (hif : s.loginInFlight = none) :
    osLoginEnter env now s =
      (.started s.nextId,
       { s with loginInFlight := some s.nextId, nextId := s.nextId + 1 }) := by
  simp [osLoginEnter, hc, hcond, hif]

/-- Branch lemma: an enter while a login is in flight attaches to it and
leaves the state untouched. -/
theorem osLoginEnter_eq_attach (env : ServerEnv) (now : Int) (s : BrokerState)
    (id : Nat) (hc : credsOk env = true)
    (hcond : (jsTruthyStr s.cachedToken &&
      decide (now - s.tokenSetAtMs < tokenTtlMs)) = false)
    (hif : s.loginInFlight = some id) :
    osLoginEnter env now s = (.attach id, s) := by
  simp [osLoginEnter, hc, hcond, hif]

/-- `osLoginFinish` never touches the network-call counter. -/
theorem osLoginFinish_loginCalls (resp : LoginResp) (now : Int) (s : BrokerState) :
    (osLoginFinish resp now s).2.loginCalls = s.loginCalls := by
  cases hok : resp.ok <;> cases htok : jsTruthyStr resp.token <;>
    simp [osLoginFinish, hok, htok]

/-- `osLoginAttempt` issues exactly one network login request. -/
theorem osLoginAttempt_loginCalls (now : Int) (slack : Nat) (s : BrokerState) :
    (osLoginAttempt now slack s).loginCalls = s.loginCalls + 1 := rfl

/-- C3: with credentials configured, a cached token inside its validity
window is returned immediately with no state change and zero network calls
(server `osLogin`, 8 h window; worker `ensureToken`, expiry minus 60 s);
once the window has elapsed the cached token is treated as absent: the
server call (with no login in flight) starts a fresh login and the worker
call issues a network login request. -/
theorem C3_cached_token (env : ServerEnv) (s : BrokerState) (now : Int)
    (hc : credsOk env = true) :
    (∀ t, s.cachedToken = some t → t ≠ "" → now - s.tokenSetAtMs < tokenTtlMs →
      ∀ slack nowF resp, osLoginRun env now slack nowF resp s = (.ok t, s))
    ∧ (s.loginInFlight = none → ¬ (now - s.tokenSetAtMs < tokenTtlMs) →
      (osLoginEnter env now s).1 = .started s.nextId
      ∧ ∀ slack nowF resp,
          (osLoginRun env now slack nowF resp s).2.loginCalls = s.loginCalls + 1)
    ∧ (∀ (envW : WorkerEnv) (w : WorkerState) t2 resp,
        w.cachedToken = some t2 → t2 ≠ "" → w.tokenExpMs - now > 60000 →
          ensureToken envW now resp w = (.ok (some t2), w))
    ∧ (∀ (envW : WorkerEnv) (w : WorkerState) resp,
        ¬ (w.tokenExpMs - now > 60000) →
        jsTruthyStr envW.OS_USERNAME = true → jsTruthyStr envW.OS_PASSWORD = true →
          (ensureToken envW now resp w).2.loginCalls = w.loginCalls + 1) := by
  refine ⟨?_, ?_, ?_, ?_⟩
  · intro t ht hne hfresh slack nowF resp
    unfold osLoginRun
    rw [osLoginEnter_eq_cached env now s t hc ht hne hfresh]
  · intro hif hstale
    have hcond : (jsTruthyStr s.cachedToken &&
        decide (now - s.tokenSetAtMs < tokenTtlMs)) = false := by
      simp [hstale]
    constructor
    · rw [osLoginEnter_eq_started env now s hc hcond hif]
    · intro slack nowF resp
      unfold osLoginRun
      rw [osLoginEnter_eq_started env now s hc hcond hif]
      simp only [osLoginFinish_loginCalls, osLoginAttempt_loginCalls]
  · intro envW w t2 resp ht2 hne2 hfresh2
    simp [ensureToken, ht2, jsTruthyStr, hne2, hfresh2]
  · intro envW w resp hstale2 hu hp
    have hcw : (jsTruthyStr w.cachedToken && decide (w.tokenExpMs - now > 60000)) = false := by
      simp [hstale2]
    have hcr : (!jsTruthyStr envW.OS_USERNAME || !jsTruthyStr envW.OS_PASSWORD) = false := by
      simp [hu, hp]
    cases hok : resp.ok <;> simp [ensureToken, hcw, hcr, hok]

/-- Witness for `C3_cached_token` at a concrete state. -/
theorem C3_cached_token_witness :
    osLoginRun { OS_USERNAME := "u", OS_PASSWORD := "p" } 5 0 5
      { ok := true, status := 200, token := some "zzz", message := "" }
      { cachedToken := some "tok", tokenSetAtMs := 0, loginInFlight := none,
        lastLoginAtMs := 0, loginCalls := 0, nextId := 0 }
      = (.ok "tok",
         { cachedToken := some "tok", tokenSetAtMs := 0, loginInFlight := none,
           lastLoginAtMs := 0, loginCalls := 0, nextId := 0 }) :=
  (C3_cached_token { OS_USERNAME := "u", OS_PASSWORD := "p" }
    { cachedToken := some "tok", tokenSetAtMs := 0, loginInFlight := none,
      lastLoginAtMs := 0, loginCalls := 0, nextId := 0 } 5 (by decide)).1
    "tok" rfl (by decide) (by decide) 0 5
    { ok := true, status := 200, token := some "zzz", message := "" }

/-- Enter steps never change the cached token or the call counter. -/
theorem runEnters_attach_all (env : ServerEnv) (id : Nat) :
    ∀ (ts : List Int) (s : BrokerState), credsOk env = true →
      s.cachedToken = none → s.loginInFlight = some id →
      runEnters env ts s = (ts.map (fun _ => LoginEnter.attach id), s) := by
  intro ts
  induction ts with
  | nil => intro s _ _ _; rfl
  | cons t ts ih =>
      intro s hc hcache hif
      have hcond : (jsTruthyStr s.cachedToken &&
          decide (t - s.tokenSetAtMs < tokenTtlMs)) = false := by
        simp [hcache, jsTruthyStr]
      have henter := osLoginEnter_eq_attach env t s id hc hcond hif
      simp [runEnters, henter, ih s hc hcache hif]

/-- No `.started` among pure attach results. -/
theorem countP_attach_zero (id : Nat) :
    ∀ (ts : List Int),
      ((ts.map (fun _ => LoginEnter.attach id)).countP isStarted) = 0 := by
  intro ts
  induction ts with
  | nil => rfl
  | cons t ts ih => simp [List.countP_cons, isStarted, ih]

/-- C1: from a state with no cached token and no login in flight, N ≥ 1
concurrent `osLogin` calls (entering at arbitrary times `t :: ts`) create
exactly one in-flight login: the first caller starts promise `s.nextId`,
every later caller attaches to that same promise, every caller observes the
promise's single resolution (`resolved`, token or error alike), the enters
themselves issue no network call, and the single started IIFE then issues
exactly one `POST /login`. -/
theorem C1_concurrent_single_login (env : ServerEnv) (s : BrokerState)
    (t : Int) (ts : List Int) (resolved : Except String String)
    (hc : credsOk env = true) (hcache : s.cachedToken = none)
    (hif : s.loginInFlight = none) :
    ((runEnters env (t :: ts) s).1.countP isStarted = 1)
    ∧ (∀ r ∈ (runEnters env (t :: ts) s).1, callerOutcome r resolved = resolved)
    ∧ ((runEnters env (t :: ts) s).2.loginCalls = s.loginCalls)
    ∧ (∀ now2 slack,
        (osLoginAttempt now2 slack (runEnters env (t :: ts) s).2).loginCalls
          = s.loginCalls + 1) := by
  have hcond : (jsTruthyStr s.cachedToken &&
      decide (t - s.tokenSetAtMs < tokenTtlMs)) = false := by
    simp [hcache, jsTruthyStr]
  have henter := osLoginEnter_eq_started env t s hc hcond hif
  have hrest := runEnters_attach_all env s.nextId ts
    { s with loginInFlight := some s.nextId, nextId := s.nextId + 1 }
    hc hcache rfl
  have hrun : runEnters env (t :: ts) s =
      (LoginEnter.started s.nextId :: ts.map (fun _ => LoginEnter.attach s.nextId),
       { s with loginInFlight := some s.nextId, nextId := s.nextId + 1 }) := by
    simp [runEnters, henter, hrest]
  refine ⟨?_, ?_, ?_, ?_⟩
  · rw [hrun]
    simp [List.countP_cons, isStarted, countP_attach_zero]
  · rw [hrun]
    intro r hr
    rcases List.mem_cons.mp hr with h | h
    · subst h; rfl
    · rcases List.mem_map.mp h with ⟨_, _, h2⟩
      rw [← h2]; rfl
  · rw [hrun]
  · intro now2 slack
    rw [hrun, osLoginAttempt_loginCalls]

/-- Witness for `C1_concurrent_single_login`: three concurrent callers,
one started login, two attachments, one network call. -/
theorem C1_concurrent_single_login_witness :
    ((runEnters { OS_USERNAME := "u", OS_PASSWORD := "p" } [3, 4, 5]
        { cachedToken := none, tokenSetAtMs := 0, loginInFlight := none,
          lastLoginAtMs := 0, loginCalls := 0, nextId := 0 }).1.countP isStarted = 1)
    ∧ (∀ r ∈ (runEnters { OS_USERNAME := "u", OS_PASSWORD := "p" } [3, 4, 5]
        { cachedToken := none, tokenSetAtMs := 0, loginInFlight := none,
          lastLoginAtMs := 0, loginCalls := 0, nextId := 0 }).1,
        callerOutcome r (Except.ok "tok") = Except.ok "tok") :=
  ⟨(C1_concurrent_single_login { OS_USERNAME := "u", OS_PASSWORD := "p" }
      { cachedToken := none, tokenSetAtMs := 0, loginInFlight := none,
        lastLoginAtMs := 0, loginCalls := 0, nextId := 0 }
      3 [4, 5] (Except.ok "tok") (by decide) rfl rfl).1,
   (C1_concurrent_single_login { OS_USERNAME := "u", OS_PASSWORD := "p" }
      { cachedToken := none, tokenSetAtMs := 0, loginInFlight := none,
        lastLoginAtMs := 0, loginCalls := 0, nextId := 0 }
      3 [4, 5] (Except.ok "tok") (by decide) rfl rfl).2.1⟩

/-- C10: whichever way a login resolves — a token, a rejected upstream
response, or a response without a token — the in-flight handle is cleared;
consequently a later `osLogin` call finding the cache still unusable starts
a fresh login instead of hanging on the old handle. -/
theorem C10_inflight_cleared (resp : LoginResp) (now : Int) (s : BrokerState) :
    ((osLoginFinish resp now s).2.loginInFlight = none)
    ∧ (∀ (env : ServerEnv) (now2 : Int), credsOk env = true →
        (jsTruthyStr (osLoginFinish resp now s).2.cachedToken &&
          decide (now2 - (osLoginFinish resp now s).2.tokenSetAtMs < tokenTtlMs)) = false →
        (osLoginFinish resp now s).2.loginInFlight = none →
        (osLoginEnter env now2 (osLoginFinish resp now s).2).1
          = .started (osLoginFinish resp now s).2.nextId) := by
  have hclear : (osLoginFinish resp now s).2.loginInFlight = none := by
    cases hok : resp.ok <;> cases htok : jsTruthyStr resp.token <;>
      simp [osLoginFinish, hok, htok]
  refine ⟨hclear, ?_⟩
  intro env now2 hc hcond _
  rw [osLoginEnter_eq_started env now2 (osLoginFinish resp now s).2 hc hcond hclear]

/-- Witness for `C10_inflight_cleared`: after a failed login the handle is
empty and the next call starts login promise 1 afresh. -/
theorem C10_inflight_cleared_witness :
    ((osLoginFinish { ok := false, status := 503, token := none, message := "down" } 9
        { cachedToken := none, tokenSetAtMs := 0, loginInFlight := some 0,
          lastLoginAtMs := 0, loginCalls := 1, nextId := 1 }).2.loginInFlight = none)
    ∧ ((osLoginEnter { OS_USERNAME := "u", OS_PASSWORD := "p" } 10
        (osLoginFinish { ok := false, status := 503, token := none, message := "down" } 9
          { cachedToken := none, tokenSetAtMs := 0, loginInFlight := some 0,
            lastLoginAtMs := 0, loginCalls := 1, nextId := 1 }).2).1
        = .started (osLoginFinish { ok := false, status := 503, token := none, message := "down" } 9
          { cachedToken := none, tokenSetAtMs := 0, loginInFlight := some 0,
            lastLoginAtMs := 0, loginCalls := 1, nextId := 1 }).2.nextId) :=
  ⟨(C10_inflight_cleared { ok := false, status := 503, token := none, message := "down" } 9
      { cachedToken := none, tokenSetAtMs := 0, loginInFlight := some 0,
        lastLoginAtMs := 0, loginCalls := 1, nextId := 1 }).1,
   (C10_inflight_cleared { ok := false, status := 503, token := none, message := "down" } 9
      { cachedToken := none, tokenSetAtMs := 0, loginInFlight := some 0,
        lastLoginAtMs := 0, loginCalls := 1, nextId := 1 }).2
      { OS_USERNAME := "u", OS_PASSWORD := "p" } 10 (by decide) (by decide) (by decide)⟩

/-- C2 counterexample.  Concrete run: a valid token `"t0"` is cached, the
first `/download` answers 401 with message `"Unauthorized"`, the re-login
succeeds with fresh token `"t1"`, and the retry answers 403 with message
`"forbidden"`.  The caller receives the retry's 403 error — not the
original 401 error — and the token cache ends holding the fresh token
`"t1"`, not cleared, refuting the claim as stated. -/
theorem C2_counterexample :
    (handleDownload { OS_USERNAME := "u", OS_PASSWORD := "p" } (some 5)
      { loginResp := { ok := true, status := 200, token := some "x", message := "" },
        firstResp := { status := 401, link := none, message := "Unauthorized" },
        reLoginResp := { ok := true, status := 200, token := some "t1", message := "" },
        secondResp := { status := 403, link := none, message := "forbidden" },
        fileStatus := 200, fileBody := "" } 0
      { cachedToken := some "t0", tokenSetAtMs := 0, loginInFlight := none,
        lastLoginAtMs := 0, loginCalls := 0, nextId := 0 }).outcome
      = .json 403 "forbidden"
    ∧ (handleDownload { OS_USERNAME := "u", OS_PASSWORD := "p" } (some 5)
      { loginResp := { ok := true, status := 200, token := some "x", message := "" },
        firstResp := { status := 401, link := none, message := "Unauthorized" },
        reLoginResp := { ok := true, status := 200, token := some "t1", message := "" },
        secondResp := { status := 403, link := none, message := "forbidden" },
        fileStatus := 200, fileBody := "" } 0
      { cachedToken := some "t0", tokenSetAtMs := 0, loginInFlight := none,
        lastLoginAtMs := 0, loginCalls := 0, nextId := 0 }).outcome
      ≠ .json 401 "Unauthorized"
    ∧ (handleDownload { OS_USERNAME := "u", OS_PASSWORD := "p" } (some 5)
      { loginResp := { ok := true, status := 200, token := some "x", message := "" },
        firstResp := { status := 401, link := none, message := "Unauthorized" },
        reLoginResp := { ok := true, status := 200, token := some "t1", message := "" },
        secondResp := { status := 403, link := none, message := "forbidden" },
        fileStatus := 200, fileBody := "" } 0
      { cachedToken := some "t0", tokenSetAtMs := 0, loginInFlight := none,
        lastLoginAtMs := 0, loginCalls := 0, nextId := 0 }).state.cachedToken
      = some "t1" := by
  refine ⟨?_, ?_, ?_⟩ <;> decide

/-- C2 as amended: when the first `/download` returns 401 (from a state with
a valid cached token and no login in flight), the broker clears the cached
token, performs exactly one re-login-and-retry (two `/download` network
calls in total); if the retry also fails, the retry's own error — not the
original 401 error — is returned to the caller, and the token cache holds
the freshly acquired token rather than ending cleared. -/
theorem C2_amended_retry (env : ServerEnv) (fid : Int) (o : DlOracle)
    (now : Int) (s : BrokerState) (t0 t1 : String)
    (hc : credsOk env = true) (hfid : 0 < fid)
    (ht0 : s.cachedToken = some t0) (ht0ne : t0 ≠ "")
    (hfresh : now - s.tokenSetAtMs < tokenTtlMs) (hif : s.loginInFlight = none)
    (h401 : o.firstResp.status = 401)
    (hrl : o.reLoginResp.ok = true) (hrlt : o.reLoginResp.token = some t1)
    (ht1ne : t1 ≠ "")
    (hfail : respOk o.secondResp.status = false)
    (hst : o.secondResp.status ≠ 0) :
    (handleDownload env (some fid) o now s).dlCalls = 2
    ∧ (handleDownload env (some fid) o now s).outcome
        = .json o.secondResp.status (jsOr o.secondResp.message "OpenSubtitles download error")
    ∧ (handleDownload env (some fid) o now s).state.cachedToken = some t1 := by
  have hrun1 : osLoginRun env now 0 now o.loginResp s = (.ok t0, s) := by
    unfold osLoginRun
    rw [osLoginEnter_eq_cached env now s t0 hc ht0 ht0ne hfresh]
  have hrun2 : ∀ s2 : BrokerState, s2.cachedToken = none → s2.loginInFlight = none →
      (osLoginRun env now 0 now o.reLoginResp s2).1 = .ok t1
      ∧ (osLoginRun env now 0 now o.reLoginResp s2).2.cachedToken = some t1 := by
    intro s2 hcache2 hif2
    have hcond : (jsTruthyStr s2.cachedToken &&
        decide (now - s2.tokenSetAtMs < tokenTtlMs)) = false := by
      simp [hcache2, jsTruthyStr]
    unfold osLoginRun
    rw [osLoginEnter_eq_started env now s2 hc hcond hif2]
    simp [osLoginFinish, hrl, hrlt, jsTruthyStr, ht1ne]
  have hne : ¬ fid ≤ 0 := by omega
  have h2 := hrun2 { s with cachedToken := none, tokenSetAtMs := 0 } rfl hif
  unfold handleDownload
  simp only [hne, if_false, hrun1, h401, if_true]
  rcases hre : osLoginRun env now 0 now o.reLoginResp
      { s with cachedToken := none, tokenSetAtMs := 0 } with ⟨r3, s3⟩
  rw [hre] at h2
  rcases h2 with ⟨h2a, h2b⟩
  simp only at h2a h2b
  subst h2a
  have hdl : dlFinish o.secondResp o 2 s3 =
      { outcome := .json o.secondResp.status
          (jsOr o.secondResp.message "OpenSubtitles download error"),
        dlCalls := 2, state := s3 } := by
    unfold dlFinish
    have : (!respOk o.secondResp.status || !jsTruthyStr o.secondResp.link) = true := by
      simp [hfail]
    rw [if_pos this]
    simp [hst]
  simp [hdl, h2b]

/-- Witness for `C2_amended_retry` at a concrete input. -/
theorem C2_amended_retry_witness :
    (handleDownload { OS_USERNAME := "u", OS_PASSWORD := "p" } (some 7)
      { loginResp := { ok := true, status := 200, token := some "x", message := "" },
        firstResp := { status := 401, link := none, message := "expired" },
        reLoginResp := { ok := true, status := 200, token := some "fresh", message := "" },
        secondResp := { status := 401, link := none, message := "still bad" },
        fileStatus := 200, fileBody := "" } 2
      { cachedToken := some "old", tokenSetAtMs := 1, loginInFlight := none,
        lastLoginAtMs := 0, loginCalls := 0, nextId := 0 }).dlCalls = 2 :=
  (C2_amended_retry { OS_USERNAME := "u", OS_PASSWORD := "p" } 7
    { loginResp := { ok := true, status := 200, token := some "x", message := "" },
      firstResp := { status := 401, link := none, message := "expired" },
      reLoginResp := { ok := true, status := 200, token := some "fresh", message := "" },
      secondResp := { status := 401, link := none, message := "still bad" },
      fileStatus := 200, fileBody := "" } 2
    { cachedToken := some "old", tokenSetAtMs := 1, loginInFlight := none,
      lastLoginAtMs := 0, loginCalls := 0, nextId := 0 } "old" "fresh"
    (by decide) (by decide) rfl (by decide) (by decide) rfl rfl rfl rfl
    (by decide) (by decide) (by decide)).1

/-- C6 counterexample.  Concrete run: the cache holds the stale token
`"old"` (set at time 0, login entered 8 h later so the validity window has
elapsed), the upstream rejects the login with a 503.  The failed attempt
rejects with an error, but the token cache still holds `"old"` afterwards —
it is not left unset/absent as the claim states. -/
theorem C6_counterexample :
    (osLoginRun { OS_USERNAME := "u", OS_PASSWORD := "p" } 28800000 0 28800000
      { ok := false, status := 503, token := none, message := "down" }
      { cachedToken := some "old", tokenSetAtMs := 0, loginInFlight := none,
        lastLoginAtMs := 0, loginCalls := 0, nextId := 0 }).1
      = .error "Login OpenSubtitles (503): down"
    ∧ (osLoginRun { OS_USERNAME := "u", OS_PASSWORD := "p" } 28800000 0 28800000
      { ok := false, status := 503, token := none, message := "down" }
      { cachedToken := some "old", tokenSetAtMs := 0, loginInFlight := none,
        lastLoginAtMs := 0, loginCalls := 0, nextId := 0 }).2.cachedToken
      = some "old"
    ∧ (osLoginRun { OS_USERNAME := "u", OS_PASSWORD := "p" } 28800000 0 28800000
      { ok := false, status := 503, token := none, message := "down" }
      { cachedToken := some "old", tokenSetAtMs := 0, loginInFlight := none,
        lastLoginAtMs := 0, loginCalls := 0, nextId := 0 }).2.cachedToken
      ≠ none := by
  refine ⟨rfl, by decide, by decide⟩

/-- C6 as amended: on a successful login the returned token and the current
timestamp are stored in the cache and the promise resolves with the token;
on a failed login an error rejection is broadcast to every waiter attached
to the in-flight promise and the cache is left unchanged — in particular it
remains absent when it was absent before the attempt, but a stale token
from an earlier login is not erased. -/
theorem C6_amended_login_outcome (resp : LoginResp) (now : Int) (s : BrokerState) :
    (∀ t, resp.ok = true → resp.token = some t → t ≠ "" →
      osLoginFinish resp now s =
        (.ok t, { s with cachedToken := some t, tokenSetAtMs := now,
                         loginInFlight := none }))
    ∧ (resp.ok = false →
      (∃ m, osLoginFinish resp now s = (.error m, { s with loginInFlight := none }))
      ∧ (s.cachedToken = none → (osLoginFinish resp now s).2.cachedToken = none))
    ∧ (∀ id r, callerOutcome (LoginEnter.attach id) r = r) := by
  refine ⟨?_, ?_, ?_⟩
  · intro t hok htok hne
    simp [osLoginFinish, hok, htok, jsTruthyStr, hne]
  · intro hok
    constructor
    · exact ⟨"Login OpenSubtitles (" ++ toString resp.status ++ "): " ++
        jsOr resp.message "", by simp [osLoginFinish, hok]⟩
    · intro hcache
      simp [osLoginFinish, hok, hcache]
  · intro id r
    rfl

/-- Witness for `C6_amended_login_outcome`: a successful login stores the
token and its timestamp. -/
theorem C6_amended_login_outcome_witness :
    osLoginFinish { ok := true, status := 200, token := some "tk", message := "" } 44
      { cachedToken := none, tokenSetAtMs := 0, loginInFlight := some 0,
        lastLoginAtMs := 0, loginCalls := 1, nextId := 1 }
      = (.ok "tk",
         { cachedToken := some "tk", tokenSetAtMs := 44, loginInFlight := none,
           lastLoginAtMs := 0, loginCalls := 1, nextId := 1 }) :=
  (C6_amended_login_outcome
    { ok := true, status := 200, token := some "tk", message := "" } 44
    { cachedToken := none, tokenSetAtMs := 0, loginInFlight := some 0,
      lastLoginAtMs := 0, loginCalls := 1, nextId := 1 }).1
    "tk" rfl rfl (by decide)

/-- Branch lemma: `ensureToken` with a truthy cached token having more than
60 s of lifetime left returns it with no state change. -/
theorem ensureToken_eq_cached (env : WorkerEnv) (now : Int) (resp : LoginResp)
    (w : WorkerState) (t : String) (ht : w.cachedToken = some t) (hne : t ≠ "")
    (hfresh : w.tokenExpMs - now > 60000) :
    ensureToken env now resp w = (.ok (some t), w) := by
  simp [ensureToken, ht, jsTruthyStr, hne, hfresh]

/-- Branch lemma: part_000 `login` with a truthy cached token having more
than 60 s of lifetime left returns it with no state change. -/
theorem login_eq_cached (env : P0Env) (now : Int) (resp : LoginResp)
    (w : WorkerState) (t : String) (ht : w.cachedToken = some t) (hne : t ≠ "")
    (hfresh : w.tokenExpMs - now > 60000) :
    login env now resp w = (.ok t, w) := by
  simp [login, ht, jsTruthyStr, hne, hfresh]

/-- A missing/blank environment value makes `getEnvOrThrow` throw. -/
theorem getEnvOrThrow_missing (v : Option String) (k : String)
    (h : envMissing v = true) :
    getEnvOrThrow v k = .error ("Missing env var/secret: " ++ k) := by
  simp [getEnvOrThrow, h]

/-- C5 counterexample.  Concrete run of the worker's `ensureToken` with no
credentials configured and an empty cache: the call succeeds with a `null`
token and issues no network call — it does not fail with an AuthError. -/
theorem C5_counterexample :
    ensureToken { OS_USERNAME := none, OS_PASSWORD := none } 0
      { ok := true, status := 200, token := some "t", message := "" }
      { cachedToken := none, tokenExpMs := 0, loginCalls := 0 }
      = (.ok none, { cachedToken := none, tokenExpMs := 0, loginCalls := 0 })
    ∧ (ensureToken { OS_USERNAME := none, OS_PASSWORD := none } 0
      { ok := true, status := 200, token := some "t", message := "" }
      { cachedToken := none, tokenExpMs := 0, loginCalls := 0 }).2.loginCalls = 0 :=
  ⟨rfl, rfl⟩

/-- C5 as amended: with a username or password missing, the server's
`osLogin` and part_000's `login` fail with an error, while the worker
variant's `ensureToken` (`opensubtitles-proxy.worker.js`) instead returns a
`null` token without failing. -/
theorem C5_amended_missing_creds (envS : ServerEnv) (envP : P0Env)
    (envW : WorkerEnv) (s : BrokerState) (w : WorkerState) (now : Int)
    (resp : LoginResp)
    (hS : credsOk envS = false)
    (hP : envMissing envP.OS_USERNAME = true ∨ envMissing envP.OS_PASSWORD = true)
    (hW : jsTruthyStr envW.OS_USERNAME = false ∨ jsTruthyStr envW.OS_PASSWORD = false)
    (hwc : jsTruthyStr w.cachedToken = false) :
    ((osLoginEnter envS now s).1
      = .failed "OS_USERNAME/OS_PASSWORD manquants (necessaires pour /download).")
    ∧ (∃ m, (login envP now resp w).1 = .error m)
    ∧ ((ensureToken envW now resp w).1 = .ok none) := by
  have hcc : (jsTruthyStr w.cachedToken &&
      decide (w.tokenExpMs - now > 60000)) = false := by simp [hwc]
  refine ⟨?_, ?_, ?_⟩
  · simp [osLoginEnter, hS]
  · rcases hgu : getEnvOrThrow envP.OS_USERNAME "OS_USERNAME" with m | u
    · exact ⟨m, by simp [login, hcc, hgu]⟩
    · have hpw : envMissing envP.OS_PASSWORD = true := by
        rcases hP with h | h
        · rw [getEnvOrThrow_missing envP.OS_USERNAME "OS_USERNAME" h] at hgu
          simp at hgu
        · exact h
      exact ⟨"Missing env var/secret: OS_PASSWORD",
        by simp [login, hcc, hgu, getEnvOrThrow_missing envP.OS_PASSWORD "OS_PASSWORD" hpw]⟩
  · have hw2 : (!jsTruthyStr envW.OS_USERNAME || !jsTruthyStr envW.OS_PASSWORD) = true := by
      rcases hW with h | h <;> simp [h]
    simp [ensureToken, hcc, hw2]

/-- Witness for `C5_amended_missing_creds` at concrete inputs. -/
theorem C5_amended_missing_creds_witness :
    ((osLoginEnter { OS_USERNAME := "", OS_PASSWORD := "p" } 0
      { cachedToken := none, tokenSetAtMs := 0, loginInFlight := none,
        lastLoginAtMs := 0, loginCalls := 0, nextId := 0 }).1
      = .failed "OS_USERNAME/OS_PASSWORD manquants (necessaires pour /download).")
    ∧ (∃ m, (login { OS_USERNAME := none, OS_PASSWORD := some "p" } 0
        { ok := true, status := 200, token := some "t", message := "" }
        { cachedToken := none, tokenExpMs := 0, loginCalls := 0 }).1 = .error m)
    ∧ ((ensureToken { OS_USERNAME := some "", OS_PASSWORD := some "p" } 0
        { ok := true, status := 200, token := some "t", message := "" }
        { cachedToken := none, tokenExpMs := 0, loginCalls := 0 }).1 = .ok none) :=
  C5_amended_missing_creds { OS_USERNAME := "", OS_PASSWORD := "p" }
    { OS_USERNAME := none, OS_PASSWORD := some "p" }
    { OS_USERNAME := some "", OS_PASSWORD := some "p" }
    { cachedToken := none, tokenSetAtMs := 0, loginInFlight := none,
      lastLoginAtMs := 0, loginCalls := 0, nextId := 0 }
    { cachedToken := none, tokenExpMs := 0, loginCalls := 0 } 0
    { ok := true, status := 200, token := some "t", message := "" }
    (by decide) (Or.inl (by decide)) (Or.inl (by decide)) (by decide)

/-- C7 counterexample.  Concrete run of the worker's `/search` route with a
present-but-empty `query` parameter: the upstream request is still issued
(one network call) and the upstream's 200 is returned — not a 400-class
error with zero calls as the claim states for every handler. -/
theorem C7_counterexample :
    workerSearch [("query", "")] { ok := true, status := 200, message := "" }
      = { status := 200, error := none, forwarded := [], upstreamCalls := 1 }
    ∧ (workerSearch [("query", "")]
        { ok := true, status := 200, message := "" }).upstreamCalls ≠ 0
    ∧ (workerSearch [("query", "")]
        { ok := true, status := 200, message := "" }).status ≠ 400 :=
  ⟨by decide, by decide, by decide⟩

/-- C7 as amended: part_000's `handleSearch` answers a present-but-empty
(after trimming) `query` with a 400 error and zero upstream calls; the
worker variant's `/search` and the server's `/os/subtitles` passthrough
instead always issue their one upstream request — for any parameters,
an empty query included — and return the upstream-derived status (200
when the upstream is ok), never a 400 of their own making. -/
theorem C7_amended_empty_query (params : List (String × String)) (resp : ApiResp)
    (qs v : String)
    (hq : lookupParam params "query" = some v) (hv : jsTrim v = "") :
    handleSearch params resp =
      { status := 400, error := some "Missing query", forwarded := [],
        upstreamCalls := 0 }
    ∧ (workerSearch params resp).upstreamCalls = 1
    ∧ (resp.ok = true → (workerSearch params resp).status = 200)
    ∧ (handleSubtitles qs resp).upstreamCalls = 1
    ∧ (resp.ok = true → (handleSubtitles qs resp).status = 200
        ∧ (handleSubtitles qs resp).error = none) := by
  refine ⟨?_, ?_, ?_, ?_, ?_⟩
  · simp [handleSearch, hq, hv]
  · cases hok : resp.ok <;> simp [workerSearch, hok]
  · intro hok
    simp [workerSearch, hok]
  · cases hok : resp.ok <;> simp [handleSubtitles, hok]
  · intro hok
    simp [handleSubtitles, hok]

/-- Witness for `C7_amended_empty_query`: a whitespace-only query is
refused by part_000 with no upstream call, while the other two variants
each issue their upstream call. -/
theorem C7_amended_empty_query_witness :
    handleSearch [("query", "  ")] { ok := true, status := 200, message := "" }
      = { status := 400, error := some "Missing query", forwarded := [],
          upstreamCalls := 0 }
    ∧ (workerSearch [("query", "  ")]
        { ok := true, status := 200, message := "" }).upstreamCalls = 1
    ∧ (handleSubtitles "query=+ "
        { ok := true, status := 200, message := "" }).upstreamCalls = 1 :=
  ⟨(C7_amended_empty_query [("query", "  ")]
      { ok := true, status := 200, message := "" } "query=+ " "  "
      rfl (by decide)).1,
   (C7_amended_empty_query [("query", "  ")]
      { ok := true, status := 200, message := "" } "query=+ " "  "
      rfl (by decide)).2.1,
   (C7_amended_empty_query [("query", "  ")]
      { ok := true, status := 200, message := "" } "query=+ " "  "
      rfl (by decide)).2.2.2.1⟩

/-- Shape lemma: part_000's `/download-file` on the `file_id` path, with a
cached login and an ok `/download` response carrying a link, streams the
fetched body with the attachment disposition and the CORS headers. -/
theorem handleDownloadFile_stream (params : List (String × String)) (env : P0Env)
    (o : DlFileOracle) (now : Int) (w : WorkerState) (t : String)
    (hfid : jsTruthyStr (lookupParam params "file_id") = true)
    (ht : w.cachedToken = some t) (hne : t ≠ "")
    (hfresh : w.tokenExpMs - now > 60000)
    (hdl : respOk o.dlStatus = true) (hlink : jsTruthyStr o.dlLink = true) :
    (handleDownloadFile params env o now w).1
      = .stream o.fileStatus
          (p0StreamHeaders o.fileContentType
            ("attachment; filename=\"" ++
             stripQuotes (jsOrOpt o.dlFileName ("subtitle." ++ p0SubFormat params)) ++ "\""))
          o.fileBody := by
  simp [handleDownloadFile, hfid,
    login_eq_cached env now o.loginResp w t ht hne hfresh, hdl, hlink]

/-- Shape lemma: the worker's `/download-file`, with a non-empty `file_id`,
a cached login, an ok `/download` response carrying a link and an ok file
fetch, streams the body with status 200, the inline disposition and the
CORS headers. -/
theorem workerDownloadFile_stream (params : List (String × String))
    (env : WorkerEnv) (o : DlFileOracle) (now : Int) (w : WorkerState) (t : String)
    (hfid : pick params ["file_id"] ≠ "")
    (ht : w.cachedToken = some t) (hne : t ≠ "")
    (hfresh : w.tokenExpMs - now > 60000)
    (hdl : respOk o.dlStatus = true) (hlink : jsTruthyStr o.dlLink = true)
    (hfile : respOk o.fileStatus = true) :
    (workerDownloadFile params env o now w).1
      = .stream 200
          (corsHeadersW ++
           [("Content-Type",
             if jsOr (pick params ["format"]) "srt" == "vtt" then "text/vtt; charset=utf-8"
             else "application/x-subrip; charset=utf-8"),
            ("Content-Disposition",
             "inline; filename=\"" ++
               stripQuotes (jsOrOpt o.dlFileName
                 ("subtitle-" ++ pick params ["file_id"] ++ "." ++
                  jsOr (pick params ["format"]) "srt")) ++ "\"")])
          o.fileBody := by
  simp [workerDownloadFile, hfid,
    ensureToken_eq_cached env now o.loginResp w t ht hne hfresh, hdl, hlink, hfile]

/-- No double quote survives `stripQuotes`. -/
theorem stripQuotes_no_quote (s : String) : ¬ '"' ∈ (stripQuotes s).data := by
  intro h
  simp [stripQuotes, List.mem_filter] at h

/-- C8 counterexample.  Concrete successful `/download-file` run of the
worker variant: the response's `Content-Disposition` header is of type
`inline`, not `attachment` as the claim states. -/
theorem C8_counterexample :
    (workerDownloadFile [("file_id", "7")]
      { OS_USERNAME := some "u", OS_PASSWORD := some "p" }
      { loginResp := { ok := true, status := 200, token := some "t", message := "" },
        dlStatus := 200, dlLink := some "http://l", dlFileName := none,
        dlMessage := "", fileStatus := 200, fileBody := "abc",
        fileContentType := none } 0
      { cachedToken := none, tokenExpMs := 0, loginCalls := 0 }).1
      = .stream 200
          [("Access-Control-Allow-Origin", "*"),
           ("Access-Control-Allow-Methods", "GET,POST,OPTIONS"),
           ("Access-Control-Allow-Headers", "Content-Type"),
           ("Access-Control-Max-Age", "86400"),
           ("Content-Type", "application/x-subrip; charset=utf-8"),
           ("Content-Disposition", "inline; filename=\"subtitle-7.srt\"")]
          "abc"
    ∧ responseHeader (workerDownloadFile [("file_id", "7")]
        { OS_USERNAME := some "u", OS_PASSWORD := some "p" }
        { loginResp := { ok := true, status := 200, token := some "t", message := "" },
          dlStatus := 200, dlLink := some "http://l", dlFileName := none,
          dlMessage := "", fileStatus := 200, fileBody := "abc",
          fileContentType := none } 0
        { cachedToken := none, tokenExpMs := 0, loginCalls := 0 }).1
        "Content-Disposition"
      = some "inline; filename=\"subtitle-7.srt\""
    ∧ ("inline; filename=\"subtitle-7.srt\""
        ≠ "attachment; filename=\"subtitle-7.srt\"") :=
  ⟨by decide, by decide, by decide⟩

/-- C8 as amended: on part_000's `/download-file` a successful request
streams the fetched file body with a `Content-Disposition: attachment`
header whose filename derives from the upstream `file_name` (or the
`subtitle.<subFormat>` default) and with every CORS header present; the
worker variant streams the same way but with disposition type `inline`. -/
theorem C8_amended_download_file (params : List (String × String)) (env : P0Env)
    (o : DlFileOracle) (now : Int) (w : WorkerState) (t : String)
    (hfid : jsTruthyStr (lookupParam params "file_id") = true)
    (ht : w.cachedToken = some t) (hne : t ≠ "")
    (hfresh : w.tokenExpMs - now > 60000)
    (hdl : respOk o.dlStatus = true) (hlink : jsTruthyStr o.dlLink = true) :
    (handleDownloadFile params env o now w).1
      = .stream o.fileStatus
          (p0StreamHeaders o.fileContentType
            ("attachment; filename=\"" ++
             stripQuotes (jsOrOpt o.dlFileName ("subtitle." ++ p0SubFormat params)) ++ "\""))
          o.fileBody
    ∧ responseHeader (handleDownloadFile params env o now w).1 "Content-Disposition"
      = some ("attachment; filename=\"" ++
          stripQuotes (jsOrOpt o.dlFileName ("subtitle." ++ p0SubFormat params)) ++ "\"")
    ∧ (∀ p ∈ CORS_HEADERS,
        responseHeader (handleDownloadFile params env o now w).1 p.1 = some p.2)
    ∧ (match (handleDownloadFile params env o now w).1 with
       | .stream _ _ body => body = o.fileBody
       | _ => False) := by
  have heq := handleDownloadFile_stream params env o now w t hfid ht hne hfresh hdl hlink
  refine ⟨heq, ?_, ?_, ?_⟩
  · rw [heq]; rfl
  · intro p hp
    rw [heq]
    simp only [CORS_HEADERS, List.mem_cons, List.not_mem_nil, or_false] at hp
    rcases hp with h | h | h | h <;> subst h <;> rfl
  · rw [heq]

/-- Witness for `C8_amended_download_file` at a concrete request. -/
theorem C8_amended_download_file_witness :
    responseHeader (handleDownloadFile [("file_id", "9"), ("sub_format", "vtt")]
      { OS_USERNAME := some "u", OS_PASSWORD := some "p" }
      { loginResp := { ok := true, status := 200, token := some "z", message := "" },
        dlStatus := 200, dlLink := some "http://l", dlFileName := some "Movie.vtt",
        dlMessage := "", fileStatus := 200, fileBody := "WEBVTT",
        fileContentType := some "text/vtt" } 5
      { cachedToken := some "tk", tokenExpMs := 999999, loginCalls := 0 }).1
      "Content-Disposition"
      = some ("attachment; filename=\"" ++
          stripQuotes (jsOrOpt (some "Movie.vtt")
            ("subtitle." ++ p0SubFormat [("file_id", "9"), ("sub_format", "vtt")])) ++ "\"") :=
  (C8_amended_download_file [("file_id", "9"), ("sub_format", "vtt")]
    { OS_USERNAME := some "u", OS_PASSWORD := some "p" }
    { loginResp := { ok := true, status := 200, token := some "z", message := "" },
      dlStatus := 200, dlLink := some "http://l", dlFileName := some "Movie.vtt",
      dlMessage := "", fileStatus := 200, fileBody := "WEBVTT",
      fileContentType := some "text/vtt" } 5
    { cachedToken := some "tk", tokenExpMs := 999999, loginCalls := 0 } "tk"
    (by decide) rfl (by decide) (by decide) (by decide) (by decide)).2.1

/-- C9 counterexample.  Concrete run of part_000's legacy `url=` branch with
`sub_format=s"rt`: the `Content-Disposition` value embeds the defaulted file
name `subtitle.s"rt` without stripping, so a double quote from the query
string reaches the quoted header value. -/
theorem C9_counterexample :
    responseHeader (handleDownloadFile [("url", "u"), ("sub_format", "s\"rt")]
      { OS_USERNAME := none, OS_PASSWORD := none }
      { loginResp := { ok := true, status := 200, token := some "t", message := "" },
        dlStatus := 200, dlLink := some "l", dlFileName := none, dlMessage := "",
        fileStatus := 200, fileBody := "b", fileContentType := none } 0
      { cachedToken := none, tokenExpMs := 0, loginCalls := 0 }).1
      "Content-Disposition"
      = some ("attachment; filename=\"" ++ "subtitle.s\"rt" ++ "\"")
    ∧ '"' ∈ ("subtitle.s\"rt").data :=
  ⟨by decide, by decide⟩

/-- C9 as amended: on the `file_id` paths of both workers every double
quote is stripped from the upstream-provided or defaulted file name before
the `Content-Disposition` value is built, so the quoted value cannot be
broken out of there; the legacy `url=` branch of part_000, however, embeds
the `subtitle.<sub_format>` default unstripped (see the counterexample). -/
theorem C9_amended_quote_stripping (params : List (String × String)) (env : P0Env)
    (envW : WorkerEnv) (o : DlFileOracle) (now : Int) (w w2 : WorkerState) (t : String)
    (hfid : jsTruthyStr (lookupParam params "file_id") = true)
    (hpick : pick params ["file_id"] ≠ "")
    (ht : w.cachedToken = some t) (hne : t ≠ "")
    (hfresh : w.tokenExpMs - now > 60000)
    (ht2 : w2.cachedToken = some t) (hfresh2 : w2.tokenExpMs - now > 60000)
    (hdl : respOk o.dlStatus = true) (hlink : jsTruthyStr o.dlLink = true)
    (hfile : respOk o.fileStatus = true) :
    (∃ f, responseHeader (handleDownloadFile params env o now w).1 "Content-Disposition"
        = some ("attachment; filename=\"" ++ f ++ "\"") ∧ ¬ '"' ∈ f.data)
    ∧ (∃ f, responseHeader (workerDownloadFile params envW o now w2).1 "Content-Disposition"
        = some ("inline; filename=\"" ++ f ++ "\"") ∧ ¬ '"' ∈ f.data) := by
  constructor
  · refine ⟨stripQuotes (jsOrOpt o.dlFileName ("subtitle." ++ p0SubFormat params)),
      ?_, stripQuotes_no_quote _⟩
    rw [handleDownloadFile_stream params env o now w t hfid ht hne hfresh hdl hlink]
    rfl
  · refine ⟨stripQuotes (jsOrOpt o.dlFileName
      ("subtitle-" ++ pick params ["file_id"] ++ "." ++
       jsOr (pick params ["format"]) "srt")), ?_, stripQuotes_no_quote _⟩
    rw [workerDownloadFile_stream params envW o now w2 t hpick ht2 hne hfresh2 hdl hlink hfile]
    rfl

/-- Witness for `C9_amended_quote_stripping`: a file name containing quotes
arrives quote-free in both dispositions. -/
theorem C9_amended_quote_stripping_witness :
    (∃ f, responseHeader (handleDownloadFile [("file_id", "3")]
        { OS_USERNAME := some "u", OS_PASSWORD := some "p" }
        { loginResp := { ok := true, status := 200, token := some "z", message := "" },
          dlStatus := 200, dlLink := some "http://l", dlFileName := some "a\"b.srt",
          dlMessage := "", fileStatus := 200, fileBody := "x",
          fileContentType := none } 5
        { cachedToken := some "tk", tokenExpMs := 999999, loginCalls := 0 }).1
        "Content-Disposition"
        = some ("attachment; filename=\"" ++ f ++ "\"") ∧ ¬ '"' ∈ f.data)
    ∧ (∃ f, responseHeader (workerDownloadFile [("file_id", "3")]
        { OS_USERNAME := some "u", OS_PASSWORD := some "p" }
        { loginResp := { ok := true, status := 200, token := some "z", message := "" },
          dlStatus := 200, dlLink := some "http://l", dlFileName := some "a\"b.srt",
          dlMessage := "", fileStatus := 200, fileBody := "x",
          fileContentType := none } 5
        { cachedToken := some "tk", tokenExpMs := 999999, loginCalls := 0 }).1
        "Content-Disposition"
        = some ("inline; filename=\"" ++ f ++ "\"") ∧ ¬ '"' ∈ f.data) :=
  C9_amended_quote_stripping [("file_id", "3")]
    { OS_USERNAME := some "u", OS_PASSWORD := some "p" }
    { OS_USERNAME := some "u", OS_PASSWORD := some "p" }
    { loginResp := { ok := true, status := 200, token := some "z", message := "" },
      dlStatus := 200, dlLink := some "http://l", dlFileName := some "a\"b.srt",
      dlMessage := "", fileStatus := 200, fileBody := "x",
      fileContentType := none } 5
    { cachedToken := some "tk", tokenExpMs := 999999, loginCalls := 0 }
    { cachedToken := some "tk", tokenExpMs := 999999, loginCalls := 0 } "tk"
    (by decide) (by decide) rfl (by decide) (by decide) rfl (by decide)
    (by decide) (by decide) (by decide)
